import Mathlib

set_option maxRecDepth 4000

/-!
Verification of `backend/pdf2emb_nlp/scraper.py` (class `DocumentScraper`).

Strings are modelled as `List Char`.  Python `str.replace` is `pyReplace`
(leftmost, non-overlapping, literal substring replacement; an empty pattern
intersperses the replacement around every character, as Python does), and
Python `str.strip` is `pyStrip` (drop whitespace from both ends).

The external PDF-parsing capability (`slate3k`) and the filesystem are
modelled as oracles: a filesystem maps a path to `Option ParseOutcome`,
where `none` means the path does not exist and a `ParseOutcome` records how
`slate3k.PDF`, `len(pdf_reader)` and the page iteration behave for the
bytes found at that path.
-/

deriving instance DecidableEq for Except

/-- Strings of the Python program, modelled as lists of characters. -/
abbrev Str := List Char

/-- Scan of Python `str.replace` for a non-empty pattern `k`: leftmost,
non-overlapping occurrences of `k` are replaced by `v`.  The `fuel`
argument makes the recursion structural; callers pass the length of the
scanned list, which suffices because every step consumes at least one
character. -/
def pyReplaceLoop (k v : Str) : Nat → Str → Str
  | _, [] => []
  | 0, rest => rest
  | fuel+1, c :: cs =>
    if k.isPrefixOf (c :: cs) then v ++ pyReplaceLoop k v fuel (List.drop k.length (c :: cs))
    else c :: pyReplaceLoop k v fuel cs

/-- Python `text.replace(k, v)`.  For the empty pattern Python inserts `v`
before every character and once at the end. -/
def pyReplace (text k v : Str) : Str :=
  if k = [] then v ++ text.foldr (fun c acc => c :: (v ++ acc)) []
  else pyReplaceLoop k v text.length text

/-- Python `text.strip()`: remove whitespace from both ends. -/
def pyStrip (l : Str) : Str :=
  ((l.dropWhile Char.isWhitespace).reverse.dropWhile Char.isWhitespace).reverse

/-- Python `k in s` for strings: `k` occurs in `s` as a contiguous
substring (the empty string occurs in every string). -/
def occursIn (k : Str) : Str → Bool
  | [] => k.isEmpty
  | c :: cs => k.isPrefixOf (c :: cs) || occursIn k cs

/-- Behaviour of the parsing capability on the bytes found at a path:
`ctorFail` = `slate3k.PDF(pdf)` raises; `lenFail` = `len(pdf_reader)`
raises; `iterFail yielded reported` = `len` returned `reported` but the
page iteration raises after yielding `yielded`; `ok pages reported` =
`len` returned `reported` and iteration yields `pages`. -/
inductive ParseOutcome where
  | ctorFail : ParseOutcome
  | lenFail : ParseOutcome
  | iterFail (yielded : List Str) (reported : Nat) : ParseOutcome
  | ok (pages : List Str) (reported : Nat) : ParseOutcome
deriving DecidableEq

/-- True on the outcomes on which the parsing capability raises. -/
def ParseOutcome.isParseFailure : ParseOutcome → Bool
  | .ok _ _ => false
  | _ => true

/-- Errors surfaced by the pipeline (spec taxonomy §7). -/
inductive ScrapeError where
  | resourceNotFoundError : ScrapeError
  | documentParseError : ScrapeError
deriving DecidableEq

/-- State of the file handle opened by `_text_to_series_of_pages` when the
call finishes (spec §4.2 state machine). -/
inductive HandleState where
  | unopened : HandleState
  | opened : HandleState
  | closed : HandleState
deriving DecidableEq

/-- Log records emitted through `logger`. -/
inductive LogEntry where
  | debugReadingPage (pageNum : Nat) (pdfName : Str) : LogEntry
  | warnMissingPath (path : Str) : LogEntry
  | infoStartScraping : LogEntry
deriving DecidableEq

/-- A filesystem oracle: `none` means no resource exists at the path. -/
abbrev Fs := Str → Option ParseOutcome

/-- The state of a `DocumentScraper` instance after `__init__`: the `path`
given to the constructor, the cleaning mapping `open_json` produced by
`_read_config` (a Python dict, modelled as an insertion-ordered
association list), and the `from_s3_bucket` flag. -/
structure DocumentScraper where
  path : Str
  open_json : List (Str × Str)
  from_s3_bucket : Bool
deriving DecidableEq

/-- `DocumentScraper._clean_text`: for each `(k, v)` of `self.open_json`
in iteration order, `text = text.replace(k, v)`; then `text.strip()`. -/
def DocumentScraper._clean_text (self : DocumentScraper) (text : Str) : Str :=
  pyStrip (self.open_json.foldl (fun t kv => pyReplace t kv.1 kv.2) text)

/-- The column-oriented output table: column key paired with its rows. -/
abbrev Table := List (Str × List Str)

/-- `DocumentScraper._text_to_series_of_pages`.  The source opens
`os.path.join(self.path)` with the builtin `open` — a local-filesystem
read; the `s3Fs` oracle and `self.from_s3_bucket` are never consulted,
mirroring the source, where `s3fs` is imported but never used.  Returns
the Python return value (or the exception that escapes), the state of the
file handle when the call finishes (`pdf.close()` is executed only after
the loop completes normally), and the `logger.debug` records, one per
yielded page. -/
def DocumentScraper._text_to_series_of_pages (self : DocumentScraper)
    (localFs s3Fs : Fs) (pdf_name : Str) :
    Except ScrapeError (List Str × Nat) × HandleState × List LogEntry :=
  match localFs self.path with
  | none => (.error .resourceNotFoundError, .unopened, [])
  | some .ctorFail => (.error .documentParseError, .opened, [])
  | some .lenFail => (.error .documentParseError, .opened, [])
  | some (.iterFail yielded _reported) =>
      (.error .documentParseError, .opened,
        (List.range yielded.length).map (fun i => .debugReadingPage (i+1) pdf_name))
  | some (.ok pages reported) =>
      (.ok (pages.map self._clean_text, reported), .closed,
        (List.range pages.length).map (fun i => .debugReadingPage (i+1) pdf_name))

/-- `DocumentScraper.document_corpus_to_pandas_df`: if the path does not
exist, warn and return the empty frame; otherwise extract
(`file = self.path` is also passed as `pdf_name`), rename the series to
`str(file).replace('.pdf', '')` and concatenate it as the single column.
An exception from extraction propagates uncaught. -/
def DocumentScraper.document_corpus_to_pandas_df (self : DocumentScraper)
    (localFs s3Fs : Fs) : Except ScrapeError Table × List LogEntry :=
  match localFs self.path with
  | none => (.ok [], [.warnMissingPath self.path])
  | some _ =>
      match self._text_to_series_of_pages localFs s3Fs self.path with
      | (.error e, _, logs) => (.error e, .infoStartScraping :: logs)
      | (.ok (series, _num), _, logs) =>
          (.ok [(pyReplace self.path ".pdf".toList [], series)],
            .infoStartScraping :: logs)

/-- Errors of the configuration loader (spec taxonomy §7):
`formatError` is the `AssertionError` of the `.json`-name assertion,
`parseError` is a `json.load` failure. -/
inductive ConfigError where
  | formatError : ConfigError
  | parseError : ConfigError
deriving DecidableEq

/-- The test the source applies to the configuration source's name:
`assert '.json' in json_filename` — substring containment. -/
def nameIndicatesJson (name : Str) : Bool :=
  occursIn ".json".toList name

/-- `DocumentScraper._read_config`: `None` yields the empty mapping; a
name failing the `.json` containment assertion raises (`formatError`);
otherwise the file is read and `json.load`ed, which either yields the
mapping or raises (`parseError`).  `jsonParse` and `readFile` are oracles
for `json.load` and the file contents. -/
def _read_config (jsonParse : Str → Option (List (Str × Str))) (readFile : Str → Str) :
    Option Str → Except ConfigError (List (Str × Str))
  | none => .ok []
  | some name =>
      if nameIndicatesJson name then
        match jsonParse (readFile name) with
        | some m => .ok m
        | none => .error .parseError
      else .error .formatError

/-- The spec's `applyReplacements(T, M)`: apply the find→replace pairs of
the mapping to the text as literal substring replacements, in mapping
iteration order. -/
def applyReplacements (text : Str) (m : List (Str × Str)) : Str :=
  m.foldl (fun t kv => pyReplace t kv.1 kv.2) text

/-- Modelled from the spec: the document identifier "derived from base
filename without the PDF extension" — the last path segment with a
trailing `.pdf` extension removed. -/
def specDocumentIdentifier (path : Str) : Str :=
  let base := (path.reverse.takeWhile (fun c => c ≠ '/')).reverse
  if ".pdf".toList.isSuffixOf base then base.take (base.length - 4) else base

/-- Modelled from the spec: a mapping has "no self-referential replacement
cycles" when no find-key occurs as a substring of any replacement value,
so no replacement can ever reintroduce material for another pass. -/
def noSelfReferentialCycles (m : List (Str × Str)) : Bool :=
  m.all (fun kv => m.all (fun kv' => !(occursIn kv'.1 kv.2)))

/-! ### Auxiliary lemmas -/

/-- A string has an acceptable lead when it is empty or does not start
with whitespace. -/
def leadOk : Str → Prop
  | [] => True
  | c :: _ => Char.isWhitespace c = false

theorem leadOk_dropWhile (l : Str) : leadOk (l.dropWhile Char.isWhitespace) := by
  induction l with
  | nil => trivial
  | cons c cs ih =>
    rw [List.dropWhile_cons]
    cases hc : Char.isWhitespace c with
    | true => simpa [hc] using ih
    | false => simpa [leadOk] using hc

theorem dropWhile_leadOk_eq (l : Str) (h : leadOk l) :
    l.dropWhile Char.isWhitespace = l := by
  cases l with
  | nil => rfl
  | cons c cs =>
    rw [List.dropWhile_cons]
    simp only [leadOk] at h
    simp [h]

theorem dropWhile_ws_idem (l : Str) :
    (l.dropWhile Char.isWhitespace).dropWhile Char.isWhitespace
      = l.dropWhile Char.isWhitespace :=
  dropWhile_leadOk_eq _ (leadOk_dropWhile l)

theorem getLast_dropWhile_concat (a : Char) (ha : Char.isWhitespace a = false)
    (u : Str) : ((u ++ [a]).dropWhile Char.isWhitespace).getLast? = some a := by
  induction u with
  | nil => simp [List.dropWhile_cons, ha]
  | cons b u' ih =>
    rw [List.cons_append, List.dropWhile_cons]
    cases hb : Char.isWhitespace b with
    | true => simpa using ih
    | false =>
      simp only [Bool.false_eq_true, if_false]
      rw [← List.cons_append]
      exact List.getLast?_concat _

theorem leadOk_stripRight (m : Str) (h : leadOk m) :
    leadOk ((m.reverse.dropWhile Char.isWhitespace).reverse) := by
  cases m with
  | nil => simp [leadOk]
  | cons a t =>
    simp only [List.reverse_cons]
    have hga := getLast_dropWhile_concat a (by simpa [leadOk] using h) t.reverse
    cases hd : ((t.reverse ++ [a]).dropWhile Char.isWhitespace).reverse with
    | nil => trivial
    | cons x xs =>
      have hx : ((t.reverse ++ [a]).dropWhile Char.isWhitespace).reverse.head? = some x := by
        rw [hd]; rfl
      rw [List.head?_reverse, hga] at hx
      show Char.isWhitespace x = false
      cases hx
      simpa [leadOk] using h

theorem leadOk_pyStrip (l : Str) : leadOk (pyStrip l) :=
  leadOk_stripRight _ (leadOk_dropWhile l)

theorem pyStrip_idem (l : Str) : pyStrip (pyStrip l) = pyStrip l := by
  have h1 := dropWhile_leadOk_eq _ (leadOk_pyStrip l)
  show (((pyStrip l).dropWhile Char.isWhitespace).reverse.dropWhile Char.isWhitespace).reverse
      = pyStrip l
  rw [h1]
  simp only [pyStrip, List.reverse_reverse, dropWhile_ws_idem]

theorem occursIn_nil_pattern (s : Str) : occursIn [] s = true := by
  induction s <;> simp [occursIn, List.isEmpty, *]

theorem pyReplaceLoop_no_occurrence (k v : Str) :
    ∀ (s : Str) (fuel : Nat), occursIn k s = false → pyReplaceLoop k v fuel s = s := by
  intro s
  induction s with
  | nil => intro fuel _; cases fuel <;> rfl
  | cons c cs ih =>
    intro fuel h
    rw [occursIn, Bool.or_eq_false_iff] at h
    cases fuel with
    | zero => rfl
    | succ fuel =>
      rw [pyReplaceLoop]
      simp only [h.1, Bool.false_eq_true, if_false]
      rw [ih fuel h.2]

theorem pyReplace_no_occurrence (s k v : Str) (h : occursIn k s = false) :
    pyReplace s k v = s := by
  have hk : k ≠ [] := by
    intro he
    rw [he, occursIn_nil_pattern] at h
    exact Bool.true_eq_false.mp h
  unfold pyReplace
  rw [if_neg hk]
  exact pyReplaceLoop_no_occurrence k v s s.length h

theorem applyReplacements_no_occurrence : ∀ (m : List (Str × Str)) (s : Str),
    (∀ kv ∈ m, occursIn kv.1 s = false) → applyReplacements s m = s := by
  intro m
  induction m with
  | nil => intro s _; rfl
  | cons kv rest ih =>
    intro s h
    show applyReplacements (pyReplace s kv.1 kv.2) rest = s
    rw [pyReplace_no_occurrence s kv.1 kv.2 (h kv (List.mem_cons_self _ _))]
    exact ih s (fun kv' hkv' => h kv' (List.mem_cons_of_mem _ hkv'))

/-! ### The claims -/

/-- C1: cleaning a page text with mapping `M` equals trimming the result
of applying `M`'s find→replace pairs as literal substring replacements in
mapping iteration order; with an empty mapping it is trimming alone. -/
theorem clean_text_matches_spec (self : DocumentScraper) (text : Str) :
    self._clean_text text = pyStrip (applyReplacements text self.open_json) ∧
    DocumentScraper._clean_text ⟨self.path, [], self.from_s3_bucket⟩ text = pyStrip text :=
  ⟨rfl, rfl⟩

/-- C2: when the parsing capability reports page count `n` and yields
exactly `n` page texts, `_text_to_series_of_pages` returns the `n`
cleaned page texts in page order, together with page count `n`. -/
theorem text_to_series_counts (self : DocumentScraper) (localFs s3Fs : Fs)
    (pdf_name : Str) (pages : List Str) (n : Nat)
    (hfs : localFs self.path = some (.ok pages n)) (hlen : pages.length = n) :
    (self._text_to_series_of_pages localFs s3Fs pdf_name).1
      = .ok (pages.map self._clean_text, n) ∧
    (pages.map self._clean_text).length = n := by
  constructor
  · unfold DocumentScraper._text_to_series_of_pages
    rw [hfs]
  · rw [List.length_map]
    exact hlen

theorem text_to_series_counts_witness :
    ((⟨"a.pdf".toList, [], false⟩ : DocumentScraper)._text_to_series_of_pages
        (fun p => if p = "a.pdf".toList then some (.ok [" hi ".toList, "x".toList] 2) else none)
        (fun _ => none) "a.pdf".toList).1
      = .ok ([" hi ".toList, "x".toList].map
          (DocumentScraper._clean_text ⟨"a.pdf".toList, [], false⟩), 2) ∧
    ([" hi ".toList, "x".toList].map
        (DocumentScraper._clean_text ⟨"a.pdf".toList, [], false⟩)).length = 2 :=
  text_to_series_counts _ _ _ _ _ _ (by decide) (by decide)

/-- C3: when the path does not exist, `document_corpus_to_pandas_df`
logs a warning and returns the empty table; no error value is produced. -/
theorem scrape_missing_path_empty (self : DocumentScraper) (localFs s3Fs : Fs)
    (h : localFs self.path = none) :
    self.document_corpus_to_pandas_df localFs s3Fs
      = (.ok [], [.warnMissingPath self.path]) := by
  unfold DocumentScraper.document_corpus_to_pandas_df
  rw [h]

theorem scrape_missing_path_empty_witness :
    (⟨"nope.pdf".toList, [], false⟩ : DocumentScraper).document_corpus_to_pandas_df
        (fun _ => none) (fun _ => none)
      = (.ok [], [.warnMissingPath "nope.pdf".toList]) :=
  scrape_missing_path_empty _ _ _ rfl

/-- C4: at an existing path holding an unparsable document, extraction
fails with `documentParseError`, and `document_corpus_to_pandas_df`
propagates that failure instead of returning an empty table. -/
theorem scrape_propagates_parse_error (self : DocumentScraper) (localFs s3Fs : Fs)
    (o : ParseOutcome) (ho : localFs self.path = some o) (hf : o.isParseFailure = true) :
    (self._text_to_series_of_pages localFs s3Fs self.path).1 = .error .documentParseError ∧
    (self.document_corpus_to_pandas_df localFs s3Fs).1 = .error .documentParseError := by
  unfold DocumentScraper.document_corpus_to_pandas_df DocumentScraper._text_to_series_of_pages
  rw [ho]
  cases o with
  | ok pages reported => simp [ParseOutcome.isParseFailure] at hf
  | ctorFail => exact ⟨rfl, rfl⟩
  | lenFail => exact ⟨rfl, rfl⟩
  | iterFail yielded reported => exact ⟨rfl, rfl⟩

theorem scrape_propagates_parse_error_witness :
    (((⟨"bad.pdf".toList, [], false⟩ : DocumentScraper)._text_to_series_of_pages
        (fun _ => some .ctorFail) (fun _ => none) "bad.pdf".toList).1
      = .error .documentParseError) ∧
    (((⟨"bad.pdf".toList, [], false⟩ : DocumentScraper).document_corpus_to_pandas_df
        (fun _ => some .ctorFail) (fun _ => none)).1 = .error .documentParseError) :=
  scrape_propagates_parse_error _ _ _ _ rfl rfl

/-- C5 counterexample: at an existing path whose parse fails, the file
handle opened by `_text_to_series_of_pages` does not reach the closed
state when the call finishes — `pdf.close()` is only reached after a
successfully completed loop, and the escaping exception skips it. -/
theorem handle_left_open_on_parse_failure :
    (((⟨"corrupt.pdf".toList, [], false⟩ : DocumentScraper)._text_to_series_of_pages
        (fun _ => some .ctorFail) (fun _ => none) "corrupt.pdf".toList).1
      = .error .documentParseError) ∧
    ((⟨"corrupt.pdf".toList, [], false⟩ : DocumentScraper)._text_to_series_of_pages
        (fun _ => some .ctorFail) (fun _ => none) "corrupt.pdf".toList).2.1
      ≠ HandleState.closed := by
  decide

/-- C5 amended: the handle reaches the closed state exactly on the
successful path; on every parse failure after opening — constructor,
page-count computation, or iteration — it is left open. -/
theorem handle_closed_iff_parse_success (self : DocumentScraper) (localFs s3Fs : Fs)
    (pdf_name : Str) (o : ParseOutcome) (ho : localFs self.path = some o) :
    (self._text_to_series_of_pages localFs s3Fs pdf_name).2.1
      = (if o.isParseFailure then HandleState.opened else HandleState.closed) := by
  unfold DocumentScraper._text_to_series_of_pages
  rw [ho]
  cases o <;> rfl

theorem handle_closed_iff_parse_success_witness :
    ((⟨"ok.pdf".toList, [], false⟩ : DocumentScraper)._text_to_series_of_pages
        (fun _ => some (.ok ["p".toList] 1)) (fun _ => none) "ok.pdf".toList).2.1
      = (if (ParseOutcome.ok ["p".toList] 1).isParseFailure then HandleState.opened
          else HandleState.closed) :=
  handle_closed_iff_parse_success _ _ _ _ _ rfl

/-- C6 counterexample: for the constructor path `docs/a.pdf` the produced
column key is `docs/a` — the whole path with `.pdf` removed — while the
spec's document identifier, the base filename without the PDF extension,
is `a`. -/
theorem column_key_not_base_filename :
    (((⟨"docs/a.pdf".toList, [], false⟩ : DocumentScraper).document_corpus_to_pandas_df
        (fun p => if p = "docs/a.pdf".toList then some (.ok ["x".toList] 1) else none)
        (fun _ => none)).1 = .ok [("docs/a".toList, ["x".toList])]) ∧
    specDocumentIdentifier "docs/a.pdf".toList = "a".toList ∧
    "docs/a".toList ≠ "a".toList := by
  decide

/-- C6 amended: whenever extraction succeeds, the single column's key is
the constructor path with every occurrence of the substring `.pdf`
removed — the full path, not the base filename. -/
theorem column_key_is_path_with_pdf_removed (self : DocumentScraper)
    (localFs s3Fs : Fs) (pages : List Str) (n : Nat)
    (h : localFs self.path = some (.ok pages n)) :
    (self.document_corpus_to_pandas_df localFs s3Fs).1
      = .ok [(pyReplace self.path ".pdf".toList [], pages.map self._clean_text)] := by
  unfold DocumentScraper.document_corpus_to_pandas_df DocumentScraper._text_to_series_of_pages
  rw [h]

theorem column_key_is_path_with_pdf_removed_witness :
    ((⟨"docs/b.pdf".toList, [], false⟩ : DocumentScraper).document_corpus_to_pandas_df
        (fun p => if p = "docs/b.pdf".toList then some (.ok ["y".toList] 1) else none)
        (fun _ => none)).1
      = .ok [(pyReplace "docs/b.pdf".toList ".pdf".toList [],
          ["y".toList].map (DocumentScraper._clean_text ⟨"docs/b.pdf".toList, [], false⟩))] :=
  column_key_is_path_with_pdf_removed ⟨"docs/b.pdf".toList, [], false⟩
    (fun p => if p = "docs/b.pdf".toList then some (.ok ["y".toList] 1) else none)
    (fun _ => none) ["y".toList] 1 (by decide)

/-- C7: the configuration loader fails with `formatError` exactly when
the present source's name lacks the `.json` indicator; a name carrying
the indicator never yields `formatError`. -/
theorem read_config_format_error_iff (jsonParse : Str → Option (List (Str × Str)))
    (readFile : Str → Str) (name : Str) :
    _read_config jsonParse readFile (some name) = .error .formatError
      ↔ nameIndicatesJson name = false := by
  constructor
  · intro h
    by_contra hb
    rw [Bool.not_eq_false] at hb
    rw [_read_config] at h
    rw [if_pos hb] at h
    cases hp : jsonParse (readFile name) with
    | none => rw [hp] at h; exact ConfigError.noConfusion (Except.error.inj h)
    | some m => rw [hp] at h; exact Except.noConfusion h
  · intro h
    rw [_read_config]
    rw [if_neg (by simp [h])]

/-- C8 counterexample: the mapping `ab → ba` has no self-referential
replacement cycle (neither key occurs in any value), yet cleaning `aab`
with it is not idempotent: one cleaning yields `aba`, a second `baa`. -/
theorem clean_not_idempotent :
    noSelfReferentialCycles [("ab".toList, "ba".toList)] = true ∧
    DocumentScraper._clean_text ⟨[], [("ab".toList, "ba".toList)], false⟩
        (DocumentScraper._clean_text ⟨[], [("ab".toList, "ba".toList)], false⟩ "aab".toList)
      ≠ DocumentScraper._clean_text ⟨[], [("ab".toList, "ba".toList)], false⟩ "aab".toList := by
  decide

/-- C8 amended: cleaning is idempotent whenever no find-key of the
mapping occurs in the cleaned text — in particular replacements then act
as the identity and trimming is idempotent. -/
theorem clean_idempotent_of_no_key_in_output (self : DocumentScraper) (text : Str)
    (h : ∀ kv ∈ self.open_json, occursIn kv.1 (self._clean_text text) = false) :
    self._clean_text (self._clean_text text) = self._clean_text text := by
  show pyStrip (applyReplacements (self._clean_text text) self.open_json)
      = self._clean_text text
  rw [applyReplacements_no_occurrence self.open_json (self._clean_text text) h]
  show pyStrip (pyStrip (applyReplacements text self.open_json))
      = pyStrip (applyReplacements text self.open_json)
  exact pyStrip_idem _

theorem clean_idempotent_witness :
    DocumentScraper._clean_text ⟨[], [("Dr.".toList, "Dr".toList)], false⟩
        (DocumentScraper._clean_text ⟨[], [("Dr.".toList, "Dr".toList)], false⟩
          "  Dr. Smith arrived.  ".toList)
      = DocumentScraper._clean_text ⟨[], [("Dr.".toList, "Dr".toList)], false⟩
          "  Dr. Smith arrived.  ".toList :=
  clean_idempotent_of_no_key_in_output ⟨[], [("Dr.".toList, "Dr".toList)], false⟩
    "  Dr. Smith arrived.  ".toList (by decide)

/-- C9: with `from_s3_bucket = true` and a document present only in the
S3 oracle, the code still reads through the local filesystem — the call
fails with `resourceNotFoundError` instead of reading the S3 object, and
the whole result coincides with a run with the flag unset and no S3
oracle at all: the flag never selects the storage backend. -/
theorem s3_flag_does_not_select_backend :
    (((⟨"s3://bucket/a.pdf".toList, [], true⟩ : DocumentScraper)._text_to_series_of_pages
        (fun _ => none)
        (fun p => if p = "s3://bucket/a.pdf".toList then some (.ok ["hi".toList] 1) else none)
        "s3://bucket/a.pdf".toList).1 = .error .resourceNotFoundError) ∧
    ((⟨"s3://bucket/a.pdf".toList, [], true⟩ : DocumentScraper)._text_to_series_of_pages
        (fun _ => none)
        (fun p => if p = "s3://bucket/a.pdf".toList then some (.ok ["hi".toList] 1) else none)
        "s3://bucket/a.pdf".toList
      = (⟨"s3://bucket/a.pdf".toList, [], false⟩ : DocumentScraper)._text_to_series_of_pages
          (fun _ => none) (fun _ => none) "s3://bucket/a.pdf".toList) := by
  decide

/-- C10: the `pdf_name` argument influences at most the log records: the
returned value and final handle state are identical for any two
`pdf_name` arguments against the same scraper state and filesystems. -/
theorem pdf_name_affects_only_logs (self : DocumentScraper) (localFs s3Fs : Fs)
    (name₁ name₂ : Str) :
    (self._text_to_series_of_pages localFs s3Fs name₁).1
        = (self._text_to_series_of_pages localFs s3Fs name₂).1 ∧
    (self._text_to_series_of_pages localFs s3Fs name₁).2.1
        = (self._text_to_series_of_pages localFs s3Fs name₂).2.1 := by
  unfold DocumentScraper._text_to_series_of_pages
  cases localFs self.path with
  | none => exact ⟨rfl, rfl⟩
  | some o => cases o <;> exact ⟨rfl, rfl⟩
